import Mathlib

/-!
Shallow embedding of `src/robot/app.py` (the Status Reporter Service, a
small Flask application) and proofs about its specification claims.

The embedding models:
  - the process environment (`ROBOT_ID`, `APP_VERSION`, `HOSTNAME`) as an
    `Env` record of optional strings;
  - the external `docker inspect` invocation as a function from the argv
    list to a `ToolOutcome` (an exception, covering an absent tool and the
    timeout, or a completed run with a return code and captured stdout);
  - the filesystem as a predicate `String → Bool` giving `os.path.exists`;
  - the four Prometheus metric series as association lists from label
    tuples to values, mirroring the label-children dictionaries of the
    metrics library (insertion-ordered, one entry per label tuple);
  - each Flask route handler as a function from a `World` (environment,
    tool behaviour, filesystem) and a `Registry` to the updated `Registry`
    and a `Response`.
-/

namespace Robot

/-- Process environment visible to the application: the three variables it
reads via `os.environ.get`.  `none` models an unset variable. -/
structure Env where
  ROBOT_ID : Option String
  APP_VERSION : Option String
  HOSTNAME : Option String

/-- Outcome of `subprocess.run`: either the call raises
(`FileNotFoundError` when the tool is absent, `TimeoutExpired` on
timeout, ... — all caught by the bare `except Exception`), or it
completes with a return code and captured stdout. -/
inductive ToolOutcome where
  | exn : ToolOutcome
  | ran : Int → String → ToolOutcome

/-- Argument vector built at `app.py:18-21`: the words "docker",
"inspect", the format template querying the "version" image label, and
the HOSTNAME environment variable (defaulting to "unknown"). -/
def dockerInspectArgv (env : Env) : List String :=
  ["docker", "inspect",
   "--format=\x7b\x7bindex .Config.Labels \"version\"\x7d\x7d",
   env.HOSTNAME.getD "unknown"]

/-- ASCII case lowering of one character, the part of Python `str.lower`
relevant here: every string the program compares after lowering is
ASCII. -/
def lowerChar (c : Char) : Char :=
  if 65 ≤ c.toNat ∧ c.toNat ≤ 90 then Char.ofNat (c.toNat + 32) else c

/-- Translation of Python `str.lower` (ASCII range). -/
def pyLower (s : String) : String := String.mk (s.data.map lowerChar)

/-- ASCII whitespace test, the part of Python `str.isspace` relevant to
`str.strip`: space, tab, newline, carriage return, vertical tab, form
feed. -/
def isSpaceChar (c : Char) : Bool :=
  c.toNat = 32 || c.toNat = 9 || c.toNat = 10 || c.toNat = 13 ||
    c.toNat = 11 || c.toNat = 12

/-- Translation of Python `str.strip` with no argument: remove whitespace
from both ends. -/
def pyStrip (s : String) : String :=
  String.mk (((s.data.dropWhile isSpaceChar).reverse.dropWhile isSpaceChar).reverse)

/-- Translation of `get_app_version` (`app.py:14-29`).  The subprocess call
is abstracted by `tool`; on an exception the `except` branch falls through
to the fallback, and on a completed run the result is used only when the
return code is `0` and the stripped stdout is non-empty (Python truthiness
of `result.stdout.strip()`). -/
def get_app_version (env : Env) (tool : List String → ToolOutcome) : String :=
  match tool (dockerInspectArgv env) with
  | ToolOutcome.exn => env.APP_VERSION.getD "1.0.0"
  | ToolOutcome.ran rc out =>
      if rc = 0 ∧ pyStrip out ≠ "" then pyStrip out
      else env.APP_VERSION.getD "1.0.0"

/-- Outcome of the guarded body of `get_container_status`'s `try` block:
either the marker check completes with a boolean, or it raises. -/
inductive CheckOutcome where
  | exn : CheckOutcome
  | ok : Bool → CheckOutcome

/-- Translation of `get_container_status` (`app.py:31-41`) over the raw
outcome of the `try` block: the `except Exception` branch returns
`"Unknown"`. -/
def get_container_status : CheckOutcome → String
  | CheckOutcome.exn => "Unknown"
  | CheckOutcome.ok true => "Healthy"
  | CheckOutcome.ok false => "Running (not containerized)"

/-- The actual execution of `get_container_status`: `os.path.exists` on a
string path is total — per the Python documentation it returns `False`
when the query raises `OSError` and never propagates an exception — so the
`try` body always completes with the boolean `fs "/.dockerenv"` and the
`except` branch never receives control. -/
def get_container_status_run (fs : String → Bool) : String :=
  get_container_status (CheckOutcome.ok (fs "/.dockerenv"))

/-- Association-list lookup with default, mirroring reading the current
value of a metric series (a series that was never created reads as the
initial value). -/
def getAssocD {α β : Type} [DecidableEq α] : List (α × β) → α → β → β
  | [], _, d => d
  | p :: rest, k, d => if p.1 = k then p.2 else getAssocD rest k d

/-- Association-list overwrite, mirroring `Gauge.labels(...).set(v)`:
the first entry with the key is replaced, a missing key is appended
(dictionary insertion order). -/
def setAssoc {α β : Type} [DecidableEq α] : List (α × β) → α → β → List (α × β)
  | [], k, v => [(k, v)]
  | p :: rest, k, v => if p.1 = k then (k, v) :: rest else p :: setAssoc rest k v

/-- Association-list increment, mirroring `Counter.labels(...).inc()`:
a missing key is created at the counter's initial value `0` and then
incremented, so it is appended with value `1`. -/
def incAssoc {α : Type} [DecidableEq α] : List (α × Nat) → α → List (α × Nat)
  | [], k => [(k, 1)]
  | p :: rest, k => if p.1 = k then (p.1, p.2 + 1) :: rest else p :: incAssoc rest k

/-- The four metric series declared at `app.py:9-12`, in registration
order.  Each is the metric's label-children map: label tuple → current
value.  Gauge values are integers here because the program only ever sets
`0` or `1`; the counter is a natural number. -/
structure Registry where
  robot_info : List ((String × String × String) × Int)
  robot_health_status : List (String × Int)
  robot_requests_total : List ((String × String) × Nat)
  robot_version : List ((String × String) × Int)

/-- Registry at process startup: no labeled series exists yet. -/
def emptyRegistry : Registry :=
  { robot_info := [], robot_health_status := [],
    robot_requests_total := [], robot_version := [] }

/-- Inputs an execution of a handler depends on: the environment, the
behaviour of the external tool, and the filesystem. -/
structure World where
  env : Env
  tool : List String → ToolOutcome
  fs : String → Bool

/-- The robot id read at the top of `update_metrics` and of every handler:
`os.environ.get` of ROBOT_ID with default "1". -/
def robotId (w : World) : String := w.env.ROBOT_ID.getD "1"

/-- The status string `update_metrics` and `index` resolve for this world. -/
def resolvedStatus (w : World) : String := get_container_status_run w.fs

/-- The version string `update_metrics` and `index` resolve for this world. -/
def resolvedVersion (w : World) : String := get_app_version w.env w.tool

/-- Translation of `update_metrics` (`app.py:43-55`): recomputes id,
version and status, sets the info series (id, version, status labels) to
`1`, the version series (id, version labels) to `1`, and the health series
(id label) to `1` when `status.lower() == "healthy"` and `0` otherwise.
It does not touch `robot_requests_total`. -/
def update_metrics (w : World) (reg : Registry) : Registry :=
  let robot_id := robotId w
  let version := resolvedVersion w
  let status := resolvedStatus w
  let health_value : Int := if pyLower status = "healthy" then 1 else 0
  { reg with
    robot_info := setAssoc reg.robot_info (robot_id, version, status) 1,
    robot_version := setAssoc reg.robot_version (robot_id, version) 1,
    robot_health_status := setAssoc reg.robot_health_status robot_id health_value }

/-- The three routes of the application. -/
inductive Endpoint where
  | index : Endpoint
  | health : Endpoint
  | metrics : Endpoint

/-- The `endpoint` label value each handler passes to
`robot_requests_total.labels(...)`. -/
def Endpoint.label : Endpoint → String
  | Endpoint.index => "index"
  | Endpoint.health => "health"
  | Endpoint.metrics => "metrics"

/-- The identity data the `index` handler renders (`robot_data`,
`app.py:63-67`). -/
structure RobotData where
  id : String
  version : String
  status : String
deriving DecidableEq

/-- Response bodies the three handlers can produce: the rendered
`index.html` page over the robot data, the JSON object Flask builds from
the returned dict, or the metrics exposition text. -/
inductive Body where
  | html : RobotData → Body
  | json : List (String × String) → Body
  | text : String → Body
deriving DecidableEq

/-- An HTTP response: status code, `Content-Type` header, body. -/
structure Response where
  status : Nat
  contentType : String
  body : Body
deriving DecidableEq

/-- Label-value escaping of the Prometheus text exposition format:
backslash, double quote and newline are escaped. -/
def escapeLabelValue (s : String) : String :=
  String.join (s.toList.map (fun c =>
    if c = '\\' then "\\\\"
    else if c = '\n' then "\\n"
    else if c = '"' then "\\\""
    else String.singleton c))

/-- One `name{labels} value` sample line of the exposition format. -/
def sampleLine (name : String) (labels : List (String × String)) (value : String) : String :=
  name ++ "\x7b" ++
    String.intercalate "," (labels.map (fun p => p.1 ++ "=\"" ++ escapeLabelValue p.2 ++ "\"")) ++
    "\x7d " ++ value

/-- Exposition rendering of a metric value (the library prints floats,
so `1` renders as `1.0`). -/
def valueStr (v : Int) : String := toString v ++ ".0"

/-- Exposition rendering of a counter value. -/
def natValueStr (v : Nat) : String := toString v ++ ".0"

/-- One metric block of the exposition format: `# HELP` line, `# TYPE`
line, then one line per labeled sample. -/
def metricBlock (name doc typ : String) (samples : List String) : String :=
  "# HELP " ++ name ++ " " ++ doc ++ "\n# TYPE " ++ name ++ " " ++ typ ++ "\n" ++
    String.join (samples.map (fun s => s ++ "\n"))

/-- Modelled from the prometheus_client text exposition serializer
(library code outside this repository): renders the four registered
metrics in registration order, each series in insertion order, with the
declared label names in order.  Library details no claim depends on
(counter-name suffix handling and the timestamped `_created` samples of
recent library versions) are omitted. -/
def generate_latest (reg : Registry) : String :=
  metricBlock "robot_info" "Robot information" "gauge"
    (reg.robot_info.map (fun p =>
      sampleLine "robot_info"
        [("robot_id", p.1.1), ("version", p.1.2.1), ("status", p.1.2.2)] (valueStr p.2))) ++
  metricBlock "robot_health_status" "Robot health status (1=healthy, 0=unhealthy)" "gauge"
    (reg.robot_health_status.map (fun p =>
      sampleLine "robot_health_status" [("robot_id", p.1)] (valueStr p.2))) ++
  metricBlock "robot_requests_total" "Total HTTP requests" "counter"
    (reg.robot_requests_total.map (fun p =>
      sampleLine "robot_requests_total"
        [("endpoint", p.1.1), ("robot_id", p.1.2)] (natValueStr p.2))) ++
  metricBlock "robot_version" "Robot version information" "gauge"
    (reg.robot_version.map (fun p =>
      sampleLine "robot_version" [("robot_id", p.1.1), ("version", p.1.2)] (valueStr p.2)))

/-- Value of `prometheus_client.CONTENT_TYPE_LATEST` (library code outside
this repository), the mimetype the `/metrics` handler passes to
`Response`. -/
def CONTENT_TYPE_LATEST : String := "text/plain; version=0.0.4; charset=utf-8"

/-- Translation of `index` (`app.py:57-70`): increments the request
counter for its endpoint, builds the robot data, runs `update_metrics`,
and renders `index.html` (a Flask 200 HTML response). -/
def index_handler (w : World) (reg : Registry) : Registry × Response :=
  let robot_id := robotId w
  let reg1 := { reg with
    robot_requests_total := incAssoc reg.robot_requests_total ("index", robot_id) }
  let robot_data : RobotData :=
    { id := robot_id, version := resolvedVersion w, status := resolvedStatus w }
  let reg2 := update_metrics w reg1
  (reg2, { status := 200, contentType := "text/html; charset=utf-8",
           body := Body.html robot_data })

/-- Translation of `health` (`app.py:72-78`): increments the request
counter for its endpoint, runs `update_metrics`, and returns the dict
mapping "status" to "healthy" together with status code `200` (Flask
serializes the dict as JSON). -/
def health_handler (w : World) (reg : Registry) : Registry × Response :=
  let robot_id := robotId w
  let reg1 := { reg with
    robot_requests_total := incAssoc reg.robot_requests_total ("health", robot_id) }
  let reg2 := update_metrics w reg1
  (reg2, { status := 200, contentType := "application/json",
           body := Body.json [("status", "healthy")] })

/-- Translation of `metrics` (`app.py:80-86`): increments the request
counter for its endpoint, runs `update_metrics`, and returns
`generate_latest()` of the updated registry with mimetype
`CONTENT_TYPE_LATEST` (a Flask `Response` defaults to status `200`). -/
def metrics_handler (w : World) (reg : Registry) : Registry × Response :=
  let robot_id := robotId w
  let reg1 := { reg with
    robot_requests_total := incAssoc reg.robot_requests_total ("metrics", robot_id) }
  let reg2 := update_metrics w reg1
  (reg2, { status := 200, contentType := CONTENT_TYPE_LATEST,
           body := Body.text (generate_latest reg2) })

/-- Dispatch of one request to the handler of its endpoint. -/
def handle : Endpoint → World → Registry → Registry × Response
  | Endpoint.index => index_handler
  | Endpoint.health => health_handler
  | Endpoint.metrics => metrics_handler

/-! Concrete environments, tool behaviours and filesystems used to
instantiate the theorems. -/

/-- Environment with all three variables unset. -/
def envDefault : Env :=
  { ROBOT_ID := none, APP_VERSION := none, HOSTNAME := none }

/-- Environment with `APP_VERSION` set. -/
def envWithVersion : Env :=
  { ROBOT_ID := none, APP_VERSION := some "9.9.9", HOSTNAME := none }

/-- Tool behaviour where every invocation raises (tool absent or timed
out). -/
def toolAbsent : List String → ToolOutcome := fun _ => ToolOutcome.exn

/-- Tool behaviour where every invocation exits `0` with padded output. -/
def toolOk : List String → ToolOutcome := fun _ => ToolOutcome.ran 0 " 2.3.4\n"

/-- Filesystem where every path exists (in particular `/.dockerenv`). -/
def fsContainer : String → Bool := fun _ => true

/-- Filesystem where no path exists. -/
def fsBare : String → Bool := fun _ => false

/-- World: empty environment, failing tool, no container marker. -/
def wDefault : World := { env := envDefault, tool := toolAbsent, fs := fsBare }

/-- World: empty environment, failing tool, container marker present. -/
def wContainer : World := { env := envDefault, tool := toolAbsent, fs := fsContainer }

/-! Association-list lemmas shared by the claim theorems. -/

/-- Reading a key just written by `setAssoc` yields the written value. -/
theorem getAssocD_setAssoc_self {α β : Type} [DecidableEq α]
    (l : List (α × β)) (k : α) (v d : β) :
    getAssocD (setAssoc l k v) k d = v := by
  induction l with
  | nil => simp [setAssoc, getAssocD]
  | cons p rest ih =>
    obtain ⟨a, b⟩ := p
    by_cases h : a = k <;> simp [setAssoc, getAssocD, h, ih]

/-- `setAssoc` leaves every other key unchanged. -/
theorem getAssocD_setAssoc_ne {α β : Type} [DecidableEq α]
    (l : List (α × β)) (k k' : α) (v d : β) (h : k' ≠ k) :
    getAssocD (setAssoc l k v) k' d = getAssocD l k' d := by
  induction l with
  | nil => simp [setAssoc, getAssocD, Ne.symm h]
  | cons p rest ih =>
    obtain ⟨a, b⟩ := p
    by_cases ha : a = k
    · subst ha
      simp [setAssoc, getAssocD, Ne.symm h]
    · by_cases ha' : a = k' <;> simp [setAssoc, getAssocD, ha, ha', ih, h]

/-- `incAssoc` increases the value at its key by exactly one (a missing
series starts at the initial value `0`). -/
theorem getAssocD_incAssoc_self {α : Type} [DecidableEq α]
    (l : List (α × Nat)) (k : α) :
    getAssocD (incAssoc l k) k 0 = getAssocD l k 0 + 1 := by
  induction l with
  | nil => simp [incAssoc, getAssocD]
  | cons p rest ih =>
    obtain ⟨a, b⟩ := p
    by_cases h : a = k <;> simp [incAssoc, getAssocD, h, ih]

/-- `incAssoc` leaves every other key unchanged. -/
theorem getAssocD_incAssoc_ne {α : Type} [DecidableEq α]
    (l : List (α × Nat)) (k k' : α) (h : k' ≠ k) :
    getAssocD (incAssoc l k) k' 0 = getAssocD l k' 0 := by
  induction l with
  | nil => simp [incAssoc, getAssocD, Ne.symm h]
  | cons p rest ih =>
    obtain ⟨a, b⟩ := p
    by_cases ha : a = k
    · subst ha
      simp [incAssoc, getAssocD, Ne.symm h]
    · by_cases ha' : a = k' <;> simp [incAssoc, getAssocD, ha, ha', ih, h]

/-- `update_metrics` never touches the request counter map. -/
theorem update_metrics_requests_total (w : World) (reg : Registry) :
    (update_metrics w reg).robot_requests_total = reg.robot_requests_total := rfl

/-- C1: whenever the inspection-tool invocation fails — it raises (tool
absent, timeout), exits non-zero, or its stripped output is empty —
`get_app_version` returns `APP_VERSION` when set and `"1.0.0"` otherwise
(`Option.getD` is exactly that case split), and, being a total function of
the outcome, propagates no failure to its caller. -/
theorem c1_version_fallback_on_failure (env : Env) (tool : List String → ToolOutcome)
    (h : tool (dockerInspectArgv env) = ToolOutcome.exn ∨
      ∃ rc out, tool (dockerInspectArgv env) = ToolOutcome.ran rc out ∧
        (rc ≠ 0 ∨ pyStrip out = "")) :
    get_app_version env tool = env.APP_VERSION.getD "1.0.0" := by
  rcases h with h | ⟨rc, out, h, hfail⟩
  · simp [get_app_version, h]
  · simp only [get_app_version, h]
    rw [if_neg (fun hc => hfail.elim (fun h0 => h0 hc.1) (fun he => hc.2 he))]

/-- Witness for C1 at a concrete input: the tool raises and `APP_VERSION`
is set to `"9.9.9"`, so the resolver returns `"9.9.9"`. -/
theorem c1_witness :
    (toolAbsent (dockerInspectArgv envWithVersion) = ToolOutcome.exn ∨
      ∃ rc out, toolAbsent (dockerInspectArgv envWithVersion) = ToolOutcome.ran rc out ∧
        (rc ≠ 0 ∨ pyStrip out = "")) ∧
    get_app_version envWithVersion toolAbsent = "9.9.9" :=
  ⟨Or.inl rfl, c1_version_fallback_on_failure envWithVersion toolAbsent (Or.inl rfl)⟩

/-- C2 counterexample: the claim states that every call of `update_metrics`
increments the per-endpoint request counter, but on this concrete call
(empty registry, default world) the counter map is left exactly as it was —
still empty, so in particular the series labeled by the index endpoint and
robot id `"1"` still reads `0`, not `1`. -/
theorem c2_counterexample :
    (update_metrics wDefault emptyRegistry).robot_requests_total = [] ∧
    getAssocD (update_metrics wDefault emptyRegistry).robot_requests_total
      ("index", "1") 0 = 0 :=
  ⟨rfl, rfl⟩

/-- C2 amended: `update_metrics` updates the three series it owns — info
(id, version, status) to `1`, version (id, version) to `1`, health (id) to
`1` when the lowered status equals `"healthy"` and `0` otherwise — and
leaves the per-endpoint request counter untouched; that counter is
incremented by the route handlers themselves. -/
theorem c2_update_metrics_three_series (w : World) (reg : Registry) :
    getAssocD (update_metrics w reg).robot_info
      (robotId w, resolvedVersion w, resolvedStatus w) 0 = 1 ∧
    getAssocD (update_metrics w reg).robot_version
      (robotId w, resolvedVersion w) 0 = 1 ∧
    getAssocD (update_metrics w reg).robot_health_status (robotId w) 0 =
      (if pyLower (resolvedStatus w) = "healthy" then 1 else 0) ∧
    (update_metrics w reg).robot_requests_total = reg.robot_requests_total := by
  refine ⟨?_, ?_, ?_, rfl⟩ <;>
    simp [update_metrics, getAssocD_setAssoc_self]

/-- C3: one request to any endpoint increments the request-counter series
labeled with that endpoint and the current robot id by exactly one, and
leaves every other (endpoint, robot id) counter series unchanged. -/
theorem c3_request_counter_increment (ep : Endpoint) (w : World) (reg : Registry) :
    getAssocD (handle ep w reg).1.robot_requests_total (ep.label, robotId w) 0 =
      getAssocD reg.robot_requests_total (ep.label, robotId w) 0 + 1 ∧
    ∀ e i, (e, i) ≠ (ep.label, robotId w) →
      getAssocD (handle ep w reg).1.robot_requests_total (e, i) 0 =
        getAssocD reg.robot_requests_total (e, i) 0 := by
  cases ep <;>
    exact ⟨getAssocD_incAssoc_self reg.robot_requests_total _,
      fun e i hne => getAssocD_incAssoc_ne reg.robot_requests_total _ (e, i) hne⟩

/-- Witness for C3 at a concrete input: one index request on the empty
registry leaves the health-endpoint counter unchanged. -/
theorem c3_witness :
    ("health", "1") ≠ (Endpoint.index.label, robotId wDefault) ∧
    getAssocD (handle Endpoint.index wDefault emptyRegistry).1.robot_requests_total
        ("health", "1") 0 =
      getAssocD emptyRegistry.robot_requests_total ("health", "1") 0 :=
  ⟨by decide,
    (c3_request_counter_increment Endpoint.index wDefault emptyRegistry).2
      "health" "1" (by decide)⟩

/-- C4: when `/.dockerenv` exists the resolver returns `"Healthy"` and
`update_metrics` sets the numeric health series of the robot id to `1`;
when it does not exist the resolver returns a status different from
`"Healthy"` and the health series is set to `0`. -/
theorem c4_marker_status_health_metric (w : World) (reg : Registry) :
    (w.fs "/.dockerenv" = true →
      resolvedStatus w = "Healthy" ∧
      getAssocD (update_metrics w reg).robot_health_status (robotId w) 0 = 1) ∧
    (w.fs "/.dockerenv" = false →
      resolvedStatus w ≠ "Healthy" ∧
      getAssocD (update_metrics w reg).robot_health_status (robotId w) 0 = 0) := by
  constructor <;> intro h <;>
    constructor <;>
      simp [update_metrics, resolvedStatus, get_container_status_run,
        get_container_status, h, getAssocD_setAssoc_self] <;>
      decide

/-- Witness for C4 at a concrete input: marker present, status
`"Healthy"`, health metric `1`. -/
theorem c4_witness :
    wContainer.fs "/.dockerenv" = true ∧
    resolvedStatus wContainer = "Healthy" ∧
    getAssocD (update_metrics wContainer emptyRegistry).robot_health_status
      (robotId wContainer) 0 = 1 := by
  refine ⟨rfl, ?_⟩
  exact (c4_marker_status_health_metric wContainer emptyRegistry).1 rfl

/-- C5: the two failure-prone operations are contained — when the tool
invocation raises, the version resolver still returns the environment
fallback; the exception branch of the status resolver yields `"Unknown"`;
and every handler, on every world and registry, responds with HTTP status
`200` (both resolvers are total functions, so no exception can escape to a
handler). -/
theorem c5_failures_contained :
    (∀ (env : Env) (tool : List String → ToolOutcome),
      tool (dockerInspectArgv env) = ToolOutcome.exn →
      get_app_version env tool = env.APP_VERSION.getD "1.0.0") ∧
    get_container_status CheckOutcome.exn = "Unknown" ∧
    (∀ (ep : Endpoint) (w : World) (reg : Registry),
      (handle ep w reg).2.status = 200) := by
  refine ⟨fun env tool h => ?_, rfl, fun ep w reg => ?_⟩
  · simp [get_app_version, h]
  · cases ep <;> rfl

/-- Witness for C5 at a concrete input: the raising tool with an empty
environment yields the hardcoded default `"1.0.0"`. -/
theorem c5_witness :
    toolAbsent (dockerInspectArgv envDefault) = ToolOutcome.exn ∧
    get_app_version envDefault toolAbsent = "1.0.0" :=
  ⟨rfl, c5_failures_contained.1 envDefault toolAbsent rfl⟩

/-- C6: when the tool invocation completes with exit code `0` and output
that is non-empty after stripping, `get_app_version` returns the stripped
output, regardless of `APP_VERSION` and the hardcoded default. -/
theorem c6_version_success (env : Env) (tool : List String → ToolOutcome)
    (out : String)
    (h : tool (dockerInspectArgv env) = ToolOutcome.ran 0 out)
    (hne : pyStrip out ≠ "") :
    get_app_version env tool = pyStrip out := by
  simp [get_app_version, h, hne]

/-- Witness for C6 at a concrete input: exit code `0` with padded output
`" 2.3.4\n"` yields `"2.3.4"` even though `APP_VERSION` is set to
`"9.9.9"`. -/
theorem c6_witness :
    toolOk (dockerInspectArgv envWithVersion) = ToolOutcome.ran 0 " 2.3.4\n" ∧
    pyStrip " 2.3.4\n" = "2.3.4" ∧
    get_app_version envWithVersion toolOk = pyStrip " 2.3.4\n" :=
  ⟨rfl, by decide, c6_version_success envWithVersion toolOk " 2.3.4\n" rfl (by decide)⟩

/-- C7: every request to `/health`, whatever the world (marker, tool
outcome, resolved status) and registry, is answered with HTTP status `200`
and the fixed JSON body mapping `"status"` to `"healthy"`. -/
theorem c7_health_response (w : World) (reg : Registry) :
    (handle Endpoint.health w reg).2.status = 200 ∧
    (handle Endpoint.health w reg).2.body = Body.json [("status", "healthy")] :=
  ⟨rfl, rfl⟩

/-- C8 counterexample: the content type of the `/metrics` response is the
metrics-library constant `"text/plain; version=0.0.4; charset=utf-8"`, so
at this concrete request it is not the claimed exact string
`"text/plain; version=0.0.4"`. -/
theorem c8_counterexample :
    (handle Endpoint.metrics wDefault emptyRegistry).2.contentType ≠
      "text/plain; version=0.0.4" := by
  decide

/-- C8 amended: every `/metrics` response has HTTP status `200`, carries
content type `"text/plain; version=0.0.4; charset=utf-8"` (the claimed
value extended by the charset parameter the library constant includes),
and its body is the Prometheus text-exposition serialization of the
post-request registry. -/
theorem c8_metrics_response (w : World) (reg : Registry) :
    (handle Endpoint.metrics w reg).2.status = 200 ∧
    (handle Endpoint.metrics w reg).2.contentType =
      "text/plain; version=0.0.4; charset=utf-8" ∧
    (handle Endpoint.metrics w reg).2.body =
      Body.text (generate_latest (handle Endpoint.metrics w reg).1) :=
  ⟨rfl, rfl, rfl⟩

/-- C9: for every value of `ROBOT_ID` (with `"1"` when unset), the id the
index endpoint reports in its rendered page equals that value, and the id
the health endpoint reports — the robot id label of the request-counter
series it increments — equals it as well. -/
theorem c9_robot_id_reported (w : World) (reg : Registry) :
    (∃ rd : RobotData, (handle Endpoint.index w reg).2.body = Body.html rd ∧
      rd.id = w.env.ROBOT_ID.getD "1") ∧
    getAssocD (handle Endpoint.health w reg).1.robot_requests_total
        ("health", w.env.ROBOT_ID.getD "1") 0 =
      getAssocD reg.robot_requests_total ("health", w.env.ROBOT_ID.getD "1") 0 + 1 := by
  refine ⟨⟨_, rfl, rfl⟩, ?_⟩
  exact getAssocD_incAssoc_self reg.robot_requests_total ("health", robotId w)

/-- C10: the exception branch of `get_container_status` is unreachable in
execution — `os.path.exists` on the literal path is a total boolean test,
so the function always returns `"Healthy"` or
`"Running (not containerized)"` and never `"Unknown"`, whatever the
filesystem. -/
theorem c10_unknown_unreachable (fs : String → Bool) :
    (get_container_status_run fs = "Healthy" ∨
      get_container_status_run fs = "Running (not containerized)") ∧
    get_container_status_run fs ≠ "Unknown" := by
  unfold get_container_status_run
  cases h : fs "/.dockerenv"
  · exact ⟨Or.inr rfl, by decide⟩
  · exact ⟨Or.inl rfl, by decide⟩

end Robot
